import Mathlib

/-!
# Verification of the lead-automation core

Shallow embedding of the lead classification / mutation / summary pipeline of
this repository (`src/app.py`, function `process_leads` and its helpers, and the
script `src/main.py`).  The spreadsheet and Gmail collaborators are modelled as
pure data: the input table is a list of raw string records, and the outcome of
each attempted send is an oracle `Nat → Bool` indexed by the record's row index
(`true` = the transport delivered the message, `false` = the transport failed).

Machine specifics modelled:
* `pd.to_datetime(col, errors="coerce")` is modelled by `parseDate`, which
  accepts ISO `YYYY-MM-DD` and `YYYY-MM-DD HH:MM:SS` forms (the forms this
  pipeline itself produces and consumes) and maps every other string — blank,
  `"NaT"`, garbage, out-of-range years — to `none` (pandas `NaT`).
* `str(Timestamp)` / `astype(str)` on a datetime column is modelled by
  `dtOptToString`: `NaT ↦ "NaT"`, otherwise `"YYYY-MM-DD HH:MM:SS"` (pandas
  always prints the time-of-day component).
* the `Days Since Last Contact` column is float64 after `fillna(999)`, so its
  string form carries a trailing `.0` (`floatStr`).
* Python `str.lower` / `str.strip` are modelled by `strLower` / `strStrip`
  (ASCII case folding, ASCII whitespace).
-/

namespace LeadAuto

/-- Model of Python `str.lower` on one character (ASCII range). -/
def lowerChar (c : Char) : Char :=
  if 'A' ≤ c ∧ c ≤ 'Z' then Char.ofNat (c.toNat + 32) else c

/-- Model of Python `str.lower` (ASCII). -/
def strLower (s : String) : String := ⟨s.data.map lowerChar⟩

/-- ASCII whitespace, as stripped by Python `str.strip`. -/
def isSpaceChar (c : Char) : Bool := c = ' ' ∨ c = '\t' ∨ c = '\n' ∨ c = '\r'

/-- Model of Python `str.strip`. -/
def strStrip (s : String) : String :=
  ⟨((s.data.dropWhile isSpaceChar).reverse.dropWhile isSpaceChar).reverse⟩

/-- A pandas `Timestamp`: a calendar date plus a time of day in seconds.
`pd.to_datetime` of a date-only string yields midnight (`secs = 0`);
`datetime.today()` carries the wall-clock time of day. -/
structure DateTime where
  year : Nat
  month : Nat
  day : Nat
  secs : Nat
deriving DecidableEq, Repr

/-- Day number of a civil date (days since 0000-03-01, Gregorian), the standard
era-based conversion; used to give `Timestamp` subtraction its calendar
meaning. -/
def daysFromCivil (y m d : Nat) : Nat :=
  let yAdj := if m ≤ 2 then y - 1 else y
  let era := yAdj / 400
  let yoe := yAdj % 400
  let mp := if 2 < m then m - 3 else m + 9
  let doy := (153 * mp + 2) / 5 + (d - 1)
  let doe := yoe * 365 + yoe / 4 - yoe / 100 + doy
  era * 146097 + doe

/-- Total seconds of a `Timestamp` on the day-number axis; `Timestamp`
subtraction is subtraction of these. -/
def tsTotalSecs (t : DateTime) : Int :=
  (daysFromCivil t.year t.month t.day : Int) * 86400 + (t.secs : Int)

/-- `(a - b).days` for pandas `Timestamp`s: the timedelta's whole-day count,
floor division (pandas `Timedelta.days` floors), may be negative. -/
def timedeltaDays (a b : DateTime) : Int :=
  (tsTotalSecs a - tsTotalSecs b).fdiv 86400

def leapYear (y : Nat) : Bool := (y % 4 = 0 ∧ y % 100 ≠ 0) ∨ y % 400 = 0

def daysInMonth (y m : Nat) : Nat :=
  if m = 2 then (if leapYear y then 29 else 28)
  else if m = 4 ∨ m = 6 ∨ m = 9 ∨ m = 11 then 30
  else 31

/-- Validating constructor used by the date parser: month/day must form a real
civil date and the year must lie inside the pandas nanosecond `Timestamp`
range (approximated by whole years 1678–2261; out-of-range dates coerce to
`NaT` in pandas). -/
def mkDate (y m d secs : Nat) : Option DateTime :=
  if 1 ≤ m ∧ m ≤ 12 ∧ 1 ≤ d ∧ d ≤ daysInMonth y m ∧ 1678 ≤ y ∧ y ≤ 2261 ∧ secs < 86400
  then some ⟨y, m, d, secs⟩ else none

/-- Decimal value of a digit character. -/
def dval (c : Char) : Nat := c.toNat - 48

def allDigits (cs : List Char) : Bool := cs.all Char.isDigit

/-- Model of `pd.to_datetime(raw, errors="coerce")` on one cell: parse
`YYYY-MM-DD` (midnight) or `YYYY-MM-DD HH:MM:SS`; anything else — blank,
`"NaT"`, `"nan"`, free text, invalid or out-of-range dates — coerces to
`none` (pandas `NaT`). -/
def parseDate (s : String) : Option DateTime :=
  match (strStrip s).data with
  | [y1, y2, y3, y4, '-', m1, m2, '-', d1, d2] =>
    if allDigits [y1, y2, y3, y4, m1, m2, d1, d2] then
      mkDate (1000 * dval y1 + 100 * dval y2 + 10 * dval y3 + dval y4)
        (10 * dval m1 + dval m2) (10 * dval d1 + dval d2) 0
    else none
  | [y1, y2, y3, y4, '-', m1, m2, '-', d1, d2, ' ', h1, h2, ':', n1, n2, ':', s1, s2] =>
    if allDigits [y1, y2, y3, y4, m1, m2, d1, d2, h1, h2, n1, n2, s1, s2] then
      let hh := 10 * dval h1 + dval h2
      let mm := 10 * dval n1 + dval n2
      let ss := 10 * dval s1 + dval s2
      if hh < 24 ∧ mm < 60 ∧ ss < 60 then
        mkDate (1000 * dval y1 + 100 * dval y2 + 10 * dval y3 + dval y4)
          (10 * dval m1 + dval m2) (10 * dval d1 + dval d2) (3600 * hh + 60 * mm + ss)
      else none
    else none
  | _ => none

def pad2 (n : Nat) : String := if n < 10 then "0" ++ toString n else toString n

def pad4 (n : Nat) : String :=
  if n < 10 then "000" ++ toString n
  else if n < 100 then "00" ++ toString n
  else if n < 1000 then "0" ++ toString n
  else toString n

/-- The date part of `str(Timestamp)`. -/
def dateStr (t : DateTime) : String :=
  pad4 t.year ++ "-" ++ pad2 t.month ++ "-" ++ pad2 t.day

/-- The time-of-day part of `str(Timestamp)`. -/
def timeStr (t : DateTime) : String :=
  pad2 (t.secs / 3600) ++ ":" ++ pad2 (t.secs % 3600 / 60) ++ ":" ++ pad2 (t.secs % 60)

/-- `str(Timestamp)`: pandas always prints date and time of day. -/
def dtToString (t : DateTime) : String := dateStr t ++ " " ++ timeStr t

/-- `astype(str)` on one cell of a datetime64 column: `NaT` prints as the
literal string `"NaT"`. -/
def dtOptToString : Option DateTime → String
  | none => "NaT"
  | some t => dtToString t

/-- `astype(str)` on one cell of the float64 `Days Since Last Contact` column
(float64 after `fillna(999)`): integral floats print with a trailing `.0`. -/
def floatStr (i : Int) : String := toString i ++ ".0"

/-- One row of the sheet as loaded (`values[1:]`): every cell a raw string.
Columns fixed, in sheet order, to the five the code reads:
`Lead Name`, `Email`, `Lead Status`, `Last Contact Date`, `Notes`. -/
structure RawRecord where
  leadName : String
  email : String
  leadStatus : String
  lastContact : String
  notes : String
deriving DecidableEq, Repr

/-- One row of the working DataFrame after `app.py` lines 119–122 /
`main.py` lines 95–102: `Last Contact Date` has been `to_datetime`-coerced and
the derived `Days Since Last Contact` column filled (`fillna(999)`). -/
structure Row where
  leadName : String
  email : String
  leadStatus : String
  lastContact : Option DateTime
  notes : String
  daysSince : Int
deriving DecidableEq, Repr

/-- `app.py` 119–122 / `main.py` 95–102 on one row: coerce the date and fill
the days-since column (composition of `(today - col).dt.days` with
`fillna(999)`: `NaT` subtraction gives `NaN`, filled with `999`). -/
def loadRow (today : DateTime) (r : RawRecord) : Row :=
  let lc := parseDate r.lastContact
  { leadName := r.leadName, email := r.email, leadStatus := r.leadStatus,
    lastContact := lc, notes := r.notes,
    daysSince := match lc with
      | none => 999
      | some c => timedeltaDays today c }

/-- `app.py` line 126: `df["Lead Status"].str.lower().str.strip() == "new lead"`. -/
def welcomeStatusTest (s : String) : Bool := strStrip (strLower s) == "new lead"

/-- `app.py` line 150 / `main.py` line 106 / summary line 90:
`df["Lead Status"].isin(["New Lead", "Follow-up"])` — raw, exact comparison. -/
def followStatusTest (s : String) : Bool := s == "New Lead" || s == "Follow-up"

/-- `app.py` lines 125–128 (`new_leads` mask).  The second disjunct
(`astype(str).str.strip() == ""`) is kept from the source even though after
`to_datetime` a missing date prints as `"NaT"`, never `""`. -/
def newLeadFilter (r : Row) : Bool :=
  welcomeStatusTest r.leadStatus &&
    (r.lastContact.isNone || strStrip (dtOptToString r.lastContact) == "")

/-- `app.py` lines 149–152 / `main.py` lines 105–108 (`follow_up_list` mask).
Reads the stored `Days Since Last Contact` column. -/
def followFilter (r : Row) : Bool :=
  followStatusTest r.leadStatus && decide (2 < r.daysSince)

/-- `app.py` lines 137/139 and 171: the in-loop email guard.  Welcome loop:
`email = lead.get("Email", "").strip(); if email:`.  Follow-up loop:
`pd.notna(email) and email.strip() != ""` (`notna` is always true on the
string cells of this frame). -/
def emailOk (r : Row) : Bool := strStrip r.email != ""

/-- `app.py` lines 143–144: the welcome mutation (status left unchanged). -/
def welcomeMut (today : DateTime) (r : Row) : Row :=
  { r with lastContact := some today, notes := "Welcome email sent" }

/-- `app.py` lines 173–175 / `main.py` lines 129–131: the follow-up mutation. -/
def followMut (today : DateTime) (r : Row) : Row :=
  { r with lastContact := some today, leadStatus := "Follow-up",
           notes := "Auto-email sent" }

inductive EmailKind where
  | welcome
  | followUp
deriving DecidableEq, Repr

/-- One filter-then-iterate pass of `app.py` (lines 125–146 resp. 149–175):
the mask `p` is evaluated on the table as it stands when the pass starts, the
matching rows are visited in row order, and each visited row with a non-blank
email is mutated in place via `df.loc[i, ...]`.  Because every iteration
touches only its own row and the mask was fixed before the loop, the
filter-snapshot-then-`iterrows` of the source is exactly this single ordered
traversal (`i` is the row's index in the full table).

In `app.py` the transport result cannot reach this loop: `send_email`
(lines 70–81) catches every exception internally and only logs it, so the
mutation runs whether or not the send was delivered; the oracle `ok` decides
only whether the email counts as delivered (the `sent` component). -/
def pass (p : Row → Bool) (mf : Row → Row) (ok : Nat → Bool) (kd : EmailKind) :
    Nat → List Row → List Row × List (Nat × EmailKind)
  | _, [] => ([], [])
  | i, r :: rs =>
    if p r && emailOk r then
      (mf r :: (pass p mf ok kd (i + 1) rs).1,
        (if ok i then [(i, kd)] else []) ++ (pass p mf ok kd (i + 1) rs).2)
    else
      (r :: (pass p mf ok kd (i + 1) rs).1, (pass p mf ok kd (i + 1) rs).2)

/-- The table as loaded and enriched (`app.py` 117–122). -/
def loadTable (today : DateTime) (input : List RawRecord) : List Row :=
  input.map (loadRow today)

/-- Welcome pass (`app.py` 125–146): table and delivered-emails list. -/
def welcomeStep (today : DateTime) (wOk : Nat → Bool) (input : List RawRecord) :
    List Row × List (Nat × EmailKind) :=
  pass newLeadFilter (welcomeMut today) wOk .welcome 0 (loadTable today input)

def welcomeTable (today : DateTime) (wOk : Nat → Bool) (input : List RawRecord) :
    List Row :=
  (welcomeStep today wOk input).1

/-- Follow-up pass (`app.py` 149–175), over the post-welcome table; the
`Days Since Last Contact` column is whatever line 121 computed — the welcome
mutation did not refresh it. -/
def followStep (today : DateTime) (wOk fOk : Nat → Bool) (input : List RawRecord) :
    List Row × List (Nat × EmailKind) :=
  pass followFilter (followMut today) fOk .followUp 0 (welcomeTable today wOk input)

def followTable (today : DateTime) (wOk fOk : Nat → Bool) (input : List RawRecord) :
    List Row :=
  (followStep today wOk fOk input).1

/-- A written-back row: all cells strings (including the derived days column,
which the code never drops before `sheet.update`). -/
structure StrRow where
  leadName : String
  email : String
  leadStatus : String
  lastContact : String
  notes : String
  daysSince : String
deriving DecidableEq, Repr

/-- `df.astype(str)` on one row (`app.py` 177 / `main.py` 134): every cell to
its Python string form. -/
def stringifyRow (r : Row) : StrRow :=
  { leadName := r.leadName, email := r.email, leadStatus := r.leadStatus,
    lastContact := dtOptToString r.lastContact, notes := r.notes,
    daysSince := floatStr r.daysSince }

/-- `today.date()` equality: date-only comparison, time of day ignored
(`df["Last Contact Date"].dt.date == today.date()`). -/
def sameDate (a b : DateTime) : Bool :=
  a.year == b.year && a.month == b.month && a.day == b.day

structure Summary where
  total : Nat
  pending : Nat
  contactedToday : Nat
deriving DecidableEq, Repr

/-- `send_daily_summary` (`app.py` 85–104 / `main.py` 62–85), applied to the
already-stringified frame: re-coerces the date column (`"NaT"` → `NaT`),
counts all rows, rows with raw status exactly in `{"New Lead", "Follow-up"}`,
and rows whose re-parsed date falls on today's calendar date. -/
def summarize (today : DateTime) (rows : List StrRow) : Summary :=
  { total := rows.length,
    pending := (rows.filter (fun r => followStatusTest r.leadStatus)).length,
    contactedToday :=
      (rows.filter
        (fun r => (parseDate r.lastContact).elim false (fun d => sameDate d today))).length }

structure RunResult where
  table : List StrRow
  sent : List (Nat × EmailKind)
  summary : Summary
deriving DecidableEq, Repr

/-- `process_leads` (`app.py` 108–180) with I/O abstracted: the final string
table that `sheet.update` writes, the list of `(row index, kind)` emails the
transport actually delivered (welcome deliveries first, then follow-ups, each
in row order), and the daily summary computed from the written table. -/
def processLeads (today : DateTime) (wOk fOk : Nat → Bool) (input : List RawRecord) :
    RunResult :=
  let t := (followTable today wOk fOk input).map stringifyRow
  { table := t,
    sent := (welcomeStep today wOk input).2 ++ (followStep today wOk fOk input).2,
    summary := summarize today t }

/-- The header row the sheet was loaded with (the five columns the code
reads, in the fixed order of `RawRecord`). -/
def loadedHeader : List String :=
  ["Lead Name", "Email", "Lead Status", "Last Contact Date", "Notes"]

/-- The header `sheet.update` writes: the loaded columns plus the derived
`Days Since Last Contact` column created at `app.py` line 121 / `main.py`
line 99 and never dropped. -/
def writtenHeader : List String := loadedHeader ++ ["Days Since Last Contact"]

def strRowCells (r : StrRow) : List String :=
  [r.leadName, r.email, r.leadStatus, r.lastContact, r.notes, r.daysSince]

/-- The argument of `sheet.update` (`app.py` 178 / `main.py` 135):
`[df.columns.values.tolist()] + df.values.tolist()`. -/
def sheetPayload (res : RunResult) : List (List String) :=
  writtenHeader :: res.table.map strRowCells

/-- The follow-up loop of `main.py` (lines 110–131), where `send_email`
(lines 50–60) has no exception handler: a failed send raises out of the loop
and kills the script.  `.error i` = the run died at row `i`; rows after `i`
are never visited and neither `sheet.update` nor the summary runs. -/
def mainPass (today : DateTime) (fOk : Nat → Bool) :
    Nat → List Row → Except Nat (List Row × List (Nat × EmailKind))
  | _, [] => .ok ([], [])
  | i, r :: rs =>
    if followFilter r && emailOk r then
      if fOk i then
        match mainPass today fOk (i + 1) rs with
        | .error j => .error j
        | .ok (rs', sent) => .ok (followMut today r :: rs', (i, .followUp) :: sent)
      else .error i
    else
      match mainPass today fOk (i + 1) rs with
      | .error j => .error j
      | .ok (rs', sent) => .ok (r :: rs', sent)

/-- The whole `main.py` run (lines 93–140): load, follow-up loop, stringify,
write back, summarize — or die on the first failed send. -/
def mainRun (today : DateTime) (fOk : Nat → Bool) (input : List RawRecord) :
    Except Nat RunResult :=
  match mainPass today fOk 0 (loadTable today input) with
  | .error j => .error j
  | .ok (rows, sent) =>
    let t := rows.map stringifyRow
    .ok { table := t, sent := sent, summary := summarize today t }

/-! ## Definitions taken from the spec's words (for refinement comparison) -/

inductive Status where
  | NEW
  | FOLLOW_UP
  | OTHER
deriving DecidableEq, Repr

/-- Substring containment on the underlying character lists. -/
def containsSub (needle hay : String) : Bool :=
  hay.data.tails.any (fun t => needle.data.isPrefixOf t)

/-- Modelled from the spec (§4.1), for comparison with the code's status
comparisons: lowercase, trim; any string containing `"new"` maps to `NEW`,
containing `"follow"` to `FOLLOW_UP`, else `OTHER`. -/
def specNormalizeStatus (raw : String) : Status :=
  let t := strStrip (strLower raw)
  if containsSub "new" t then .NEW
  else if containsSub "follow" t then .FOLLOW_UP
  else .OTHER

/-- Modelled from the spec (§4.4), for comparison with the code's `pending`
count: count of rows whose normalized status is `NEW` or `FOLLOW_UP`. -/
def specPendingCount (rows : List StrRow) : Nat :=
  (rows.filter (fun r =>
    specNormalizeStatus r.leadStatus = Status.NEW ∨
    specNormalizeStatus r.leadStatus = Status.FOLLOW_UP)).length

/-! ## Concrete run contexts and records used as test inputs -/

/-- A run date: 2024-01-10, 09:00:00 wall clock. -/
def today0 : DateTime := ⟨2024, 1, 10, 32400⟩

def allOk : Nat → Bool := fun _ => true

def allFail : Nat → Bool := fun _ => false

/-- Transport fails exactly for the record at row index 0. -/
def failFirst : Nat → Bool := fun i => decide (i ≠ 0)

/-- A fresh lead: status `New Lead`, never contacted, valid email. -/
def recNew : RawRecord := ⟨"Ann", "a@x.com", "New Lead", "", ""⟩

/-- An overdue follow-up lead: last contacted 2024-01-01 (9 days before
`today0`). -/
def recFollow : RawRecord := ⟨"Bob", "b@x.com", "Follow-up", "2024-01-01", "old note"⟩

/-- A second overdue follow-up lead. -/
def recFollow2 : RawRecord := ⟨"Cara", "c@x.com", "Follow-up", "2024-01-02", ""⟩

/-- A lead with a whitespace-only email address. -/
def recBlankEmail : RawRecord := ⟨"Dee", "   ", "New Lead", "", "keep"⟩

/-- A lead whose date cell is unparsable free text. -/
def recBadDate : RawRecord := ⟨"Gus", "", "Closed", "tomorrow", ""⟩

/-! ## Helper lemmas about `pass` -/

/-- The effect of one pass on a single row: mutated exactly when it matched
the mask and its email is non-blank. -/
def passStepF (p : Row → Bool) (mf : Row → Row) (r : Row) : Row :=
  if p r && emailOk r then mf r else r

theorem pass_fst_eq_map (p : Row → Bool) (mf : Row → Row) (ok : Nat → Bool)
    (kd : EmailKind) :
    ∀ (n : Nat) (rows : List Row),
      (pass p mf ok kd n rows).1 = rows.map (passStepF p mf)
  | _, [] => rfl
  | n, r :: rs => by
    by_cases hc : (p r && emailOk r) = true
    · simp only [pass, hc, if_true, List.map_cons, passStepF,
        pass_fst_eq_map p mf ok kd (n + 1) rs]
    · simp only [pass, hc, if_false, Bool.false_eq_true, List.map_cons, passStepF,
        pass_fst_eq_map p mf ok kd (n + 1) rs]

theorem pass_sent_mem (p : Row → Bool) (mf : Row → Row) (ok : Nat → Bool)
    (kd : EmailKind) :
    ∀ (rows : List Row) (n j : Nat) (k : EmailKind),
      (j, k) ∈ (pass p mf ok kd n rows).2 →
      ∃ r, n ≤ j ∧ rows[j - n]? = some r ∧ p r = true ∧ emailOk r = true
  | [], n, j, k, h => by simp [pass] at h
  | r :: rs, n, j, k, h => by
    by_cases hc : (p r && emailOk r) = true
    · rw [pass] at h
      rw [if_pos hc] at h
      rcases List.mem_append.mp h with h1 | h2
      · have hj : j = n := by
          by_cases ho : ok n = true
          · rw [if_pos ho] at h1
            exact congrArg Prod.fst (List.mem_singleton.mp h1)
          · rw [if_neg ho] at h1
            simp at h1
        subst hj
        have hpe := hc
        rw [Bool.and_eq_true] at hpe
        refine ⟨r, le_refl _, ?_, hpe.1, hpe.2⟩
        simp
      · obtain ⟨r', hle, hget, hp, he⟩ := pass_sent_mem p mf ok kd rs (n + 1) j k h2
        refine ⟨r', by omega, ?_, hp, he⟩
        have hidx : j - n = (j - (n + 1)) + 1 := by omega
        rw [hidx]
        simpa using hget
    · rw [pass] at h
      rw [if_neg hc] at h
      obtain ⟨r', hle, hget, hp, he⟩ := pass_sent_mem p mf ok kd rs (n + 1) j k h
      refine ⟨r', by omega, ?_, hp, he⟩
      have hidx : j - n = (j - (n + 1)) + 1 := by omega
      rw [hidx]
      simpa using hget

/-- A mutation that leaves `leadName` unchanged passes through `passStepF`. -/
theorem passStepF_leadName (p : Row → Bool) (mf : Row → Row)
    (hm : ∀ r, (mf r).leadName = r.leadName) (r : Row) :
    (passStepF p mf r).leadName = r.leadName := by
  unfold passStepF
  split <;> simp [hm]

/-- A mutation that leaves `email` unchanged passes through `passStepF`. -/
theorem passStepF_email (p : Row → Bool) (mf : Row → Row)
    (hm : ∀ r, (mf r).email = r.email) (r : Row) :
    (passStepF p mf r).email = r.email := by
  unfold passStepF
  split <;> simp [hm]

/-! ## Claims -/

/-- C1: the claim says the classifier is first-match-wins, so a record gets at
most one email per run — in particular a record welcomed this run is not also
selected for a follow-up.  The code violates this: for a fresh `New Lead` with
no prior contact, both the welcome pass and the follow-up pass fire in the
same run, because the `Days Since Last Contact` column (sentinel 999) is
computed before the welcome mutation and never refreshed, and the welcome
mutation leaves the status `New Lead`, which the follow-up mask also matches.
Record 0 receives two emails in one run. -/
theorem c1_welcome_then_followup_same_run :
    (processLeads today0 allOk allOk [recNew]).sent =
      [(0, EmailKind.welcome), (0, EmailKind.followUp)] := by decide

/-- C2: the claim says a record whose send fails is left exactly as loaded.
The code violates this: with the transport failing for every record (`allFail`
— delivered-email list empty), the overdue follow-up record is still fully
mutated (`last_contact = today`, `status = Follow-up`,
`notes = "Auto-email sent"`), because `app.py`'s `send_email` catches the
transport exception internally and only logs it, so the caller's mutation
lines always run.  The loaded notes were `"old note"`. -/
theorem c2_failed_send_still_mutates :
    (processLeads today0 allFail allFail [recFollow]).sent = [] ∧
    (processLeads today0 allFail allFail [recFollow]).table =
      [{ leadName := "Bob", email := "b@x.com", leadStatus := "Follow-up",
         lastContact := "2024-01-10 09:00:00", notes := "Auto-email sent",
         daysSince := "9.0" }] ∧
    (loadRow today0 recFollow).notes = "old note" := by decide

/-- C5: the claim says a send failure for one record never aborts the batch
and the table is still written back.  In `main.py` the code violates this:
`send_email` has no exception handler, so when the transport fails on row 0
the run dies immediately (`Except.error 0`) — row 1 is never processed, and
neither `sheet.update` nor the summary runs. -/
theorem c5_send_failure_aborts_main :
    mainRun today0 failFirst [recFollow, recFollow2] = Except.error 0 := rfl

/-- C3 counterexample: the claim says status normalization matches by
substring containment and that all classification comparisons use that
normalized form.  `"Renewal"` and `"New Lead"` have the same normalized form
(`NEW`: both contain `"new"` after lowercasing), yet the code's follow-up
comparison distinguishes them, and neither code comparison accepts
`"Renewal"` — so the comparisons are not a function of the claimed
normalization. -/
theorem c3_substring_normalization_counterexample :
    specNormalizeStatus "Renewal" = Status.NEW ∧
    specNormalizeStatus "New Lead" = Status.NEW ∧
    followStatusTest "New Lead" = true ∧
    followStatusTest "Renewal" = false ∧
    welcomeStatusTest "Renewal" = false := by decide

/-- C3 amended: the code's status comparisons are exact, not substring: the
welcome mask lowercases and strips the raw status and requires it to equal
`"new lead"`, while the follow-up and pending masks compare the raw status
verbatim against `"New Lead"` / `"Follow-up"` with no normalization. -/
theorem c3_status_comparisons_exact (s : String) :
    (welcomeStatusTest s = true ↔ strStrip (strLower s) = "new lead") ∧
    (followStatusTest s = true ↔ s = "New Lead" ∨ s = "Follow-up") := by
  constructor
  · simp [welcomeStatusTest]
  · simp [followStatusTest]

/-- C4 counterexample: the claim says a successful follow-up send sets
`notes = "Follow-up email sent"`.  The code writes `"Auto-email sent"`. -/
theorem c4_followup_notes_counterexample :
    (processLeads today0 allOk allOk [recFollow]).table.map StrRow.notes =
      ["Auto-email sent"] ∧
    "Auto-email sent" ≠ "Follow-up email sent" := by decide

/-- C4 amended: for every record selected by the follow-up mask with a
non-blank email whose send succeeds, the mutation applied is exactly
`last_contact = today`, `status = "Follow-up"`, `notes = "Auto-email sent"`. -/
theorem c4_followup_mutation (today : DateTime) (wOk fOk : Nat → Bool)
    (input : List RawRecord) (i : Nat) (r : Row)
    (hget : (welcomeTable today wOk input)[i]? = some r)
    (hf : followFilter r = true) (he : emailOk r = true) (hok : fOk i = true) :
    (followTable today wOk fOk input)[i]? =
      some { r with lastContact := some today, leadStatus := "Follow-up",
                    notes := "Auto-email sent" } := by
  have h1 : followTable today wOk fOk input =
      (welcomeTable today wOk input).map (passStepF followFilter (followMut today)) :=
    pass_fst_eq_map _ _ _ _ 0 _
  rw [h1, List.getElem?_map, hget]
  simp [passStepF, hf, he, followMut]

/-- C4 witness: the amended mutation at the concrete overdue record. -/
theorem c4_followup_mutation_witness :
    (followTable today0 allOk allOk [recFollow])[0]? =
      some { leadName := "Bob", email := "b@x.com", leadStatus := "Follow-up",
             lastContact := some today0, notes := "Auto-email sent",
             daysSince := 9 } :=
  c4_followup_mutation today0 allOk allOk [recFollow] 0
    ⟨"Bob", "b@x.com", "Follow-up", some ⟨2024, 1, 1, 0⟩, "old note", 9⟩
    (by decide) (by decide) (by decide) (by decide)

/-- C6: a record whose email is blank or whitespace-only is never emailed in
either pass and is written back exactly as loaded, whatever its status and
date (both passes guard on the stripped email before mutating). -/
theorem c6_blank_email_no_action (today : DateTime) (wOk fOk : Nat → Bool)
    (input : List RawRecord) (i : Nat) (r0 : RawRecord)
    (hget : input[i]? = some r0) (hblank : strStrip r0.email = "") :
    (processLeads today wOk fOk input).table[i]? =
      some (stringifyRow (loadRow today r0)) ∧
    ∀ k, (i, k) ∉ (processLeads today wOk fOk input).sent := by
  have hload : (loadTable today input)[i]? = some (loadRow today r0) := by
    rw [loadTable, List.getElem?_map, hget]
    rfl
  have hemail : emailOk (loadRow today r0) = false := by
    simp [emailOk, loadRow, hblank]
  have hw : (welcomeTable today wOk input)[i]? = some (loadRow today r0) := by
    rw [welcomeTable, welcomeStep, pass_fst_eq_map, List.getElem?_map, hload]
    simp [passStepF, hemail]
  have hf2 : (followTable today wOk fOk input)[i]? = some (loadRow today r0) := by
    rw [followTable, followStep, pass_fst_eq_map, List.getElem?_map, hw]
    simp [passStepF, hemail]
  constructor
  · show ((followTable today wOk fOk input).map stringifyRow)[i]? = _
    rw [List.getElem?_map, hf2]
    rfl
  · intro k hk
    simp only [processLeads, List.mem_append] at hk
    rcases hk with hk | hk
    · obtain ⟨r, hn, hidx, hp, he⟩ :=
        pass_sent_mem newLeadFilter (welcomeMut today) wOk .welcome
          (loadTable today input) 0 i k hk
      rw [Nat.sub_zero, hload] at hidx
      cases Option.some.inj hidx
      rw [hemail] at he
      exact Bool.false_ne_true he
    · obtain ⟨r, hn, hidx, hp, he⟩ :=
        pass_sent_mem followFilter (followMut today) fOk .followUp
          (welcomeTable today wOk input) 0 i k hk
      rw [Nat.sub_zero, hw] at hidx
      cases Option.some.inj hidx
      rw [hemail] at he
      exact Bool.false_ne_true he

/-- C6 witness: the whitespace-email record is written back as loaded and
receives no email. -/
theorem c6_blank_email_no_action_witness :
    (processLeads today0 allOk allOk [recBlankEmail]).table[0]? =
      some (stringifyRow (loadRow today0 recBlankEmail)) ∧
    ∀ k, (0, k) ∉ (processLeads today0 allOk allOk [recBlankEmail]).sent :=
  c6_blank_email_no_action today0 allOk allOk [recBlankEmail] 0 recBlankEmail
    (by decide) (by decide)

/-- C7: the loaded days-since value is the sentinel 999 when the date cell
coerces to `NaT` and otherwise the whole-day timedelta `(today - contact)`;
a contact date in the future yields a negative value (valid, and in
particular not `> 2`). -/
theorem c7_days_since :
    (∀ (today : DateTime) (r : RawRecord),
      (loadRow today r).daysSince =
        (parseDate r.lastContact).elim 999 (fun c => timedeltaDays today c)) ∧
    (∀ (today c : DateTime), tsTotalSecs today < tsTotalSecs c →
      timedeltaDays today c < 0) := by
  constructor
  · intro today r
    cases h : parseDate r.lastContact <;> simp [loadRow, h]
  · intro today c h
    have hlt : tsTotalSecs today - tsTotalSecs c < 0 := by omega
    rw [timedeltaDays, Int.fdiv_eq_ediv _ (by decide : (0 : Int) ≤ 86400)]
    exact Int.ediv_neg' hlt (by decide)

/-- C7 witness: never-contacted record gets 999; a contact 10 days in the
future gives a negative days-since. -/
theorem c7_days_since_witness :
    (loadRow today0 recNew).daysSince = 999 ∧
    timedeltaDays today0 ⟨2024, 1, 20, 0⟩ < 0 :=
  ⟨(c7_days_since.1 today0 recNew).trans (by decide),
   c7_days_since.2 today0 ⟨2024, 1, 20, 0⟩ (by decide)⟩

/-- A written-back row with already-lowercased status, never contacted. -/
def rowLowerStatus : StrRow := ⟨"Eve", "e@x.com", "new lead", "NaT", "", "999.0"⟩

/-- C8 counterexample: the claim says `pending` counts records whose
normalized status is `NEW` or `FOLLOW_UP`.  A row with raw status
`"new lead"` normalizes to `NEW` (so the claim counts it), but the code's
`isin(["New Lead", "Follow-up"])` is a raw exact comparison and does not. -/
theorem c8_pending_counterexample :
    specNormalizeStatus "new lead" = Status.NEW ∧
    specPendingCount [rowLowerStatus] = 1 ∧
    (summarize today0 [rowLowerStatus]).pending = 0 := by decide

/-- C8 amended: `summarize` returns `total` = row count, `pending` = count of
rows whose raw status is exactly `"New Lead"` or `"Follow-up"`,
`contacted_today` = count of rows whose re-parsed date falls on today's
calendar date (date-only comparison); the empty table gives `{0, 0, 0}`. -/
theorem c8_summarize_characterization (today : DateTime) (rows : List StrRow) :
    (summarize today rows).total = rows.length ∧
    (summarize today rows).pending =
      (rows.filter (fun r =>
        r.leadStatus = "New Lead" ∨ r.leadStatus = "Follow-up")).length ∧
    (summarize today rows).contactedToday =
      (rows.filter (fun r =>
        (parseDate r.lastContact).elim false (fun d => sameDate d today))).length ∧
    summarize today [] = ⟨0, 0, 0⟩ := by
  refine ⟨rfl, ?_, rfl, rfl⟩
  simp only [summarize]
  congr 1
  apply List.filter_congr
  intro r _
  by_cases h1 : r.leadStatus = "New Lead" <;> by_cases h2 : r.leadStatus = "Follow-up" <;>
    simp [followStatusTest, h1, h2]

/-- C9 counterexample: the claim says no column is added.  The payload passed
to `sheet.update` carries six columns: the five loaded ones plus the derived
`Days Since Last Contact` column, which the code creates and never drops. -/
theorem c9_extra_column_counterexample :
    sheetPayload (processLeads today0 allOk allOk [recFollow]) =
      [["Lead Name", "Email", "Lead Status", "Last Contact Date", "Notes",
        "Days Since Last Contact"],
       ["Bob", "b@x.com", "Follow-up", "2024-01-10 09:00:00", "Auto-email sent",
        "9.0"]] ∧
    loadedHeader.length = 5 ∧ writtenHeader.length = 6 := by decide

/-- C9 amended: the written-back table has exactly the loaded records, in the
same row order, none created or deleted, and each record keeps its identity
(`Lead Name` and `Email` unchanged); but the derived `Days Since Last
Contact` column is appended to the written header. -/
theorem c9_rows_preserved (today : DateTime) (wOk fOk : Nat → Bool)
    (input : List RawRecord) :
    (processLeads today wOk fOk input).table.length = input.length ∧
    (∀ (i : Nat) (r0 : RawRecord), input[i]? = some r0 →
      ∃ sr : StrRow, (processLeads today wOk fOk input).table[i]? = some sr ∧
        sr.leadName = r0.leadName ∧ sr.email = r0.email) ∧
    writtenHeader = loadedHeader ++ ["Days Since Last Contact"] := by
  have hlen : (processLeads today wOk fOk input).table.length = input.length := by
    show ((followTable today wOk fOk input).map stringifyRow).length = _
    rw [List.length_map, followTable, followStep, pass_fst_eq_map, List.length_map,
      welcomeTable, welcomeStep, pass_fst_eq_map, List.length_map, loadTable,
      List.length_map]
  have hrow : ∀ (i : Nat) (r0 : RawRecord), input[i]? = some r0 →
      (processLeads today wOk fOk input).table[i]? =
        some (stringifyRow (passStepF followFilter (followMut today)
          (passStepF newLeadFilter (welcomeMut today) (loadRow today r0)))) := by
    intro i r0 hget
    show ((followTable today wOk fOk input).map stringifyRow)[i]? = _
    rw [List.getElem?_map, followTable, followStep, pass_fst_eq_map, List.getElem?_map,
      welcomeTable, welcomeStep, pass_fst_eq_map, List.getElem?_map, loadTable,
      List.getElem?_map, hget]
    rfl
  refine ⟨hlen, ?_, rfl⟩
  intro i r0 hget
  refine ⟨_, hrow i r0 hget, ?_, ?_⟩
  · show (passStepF followFilter (followMut today)
      (passStepF newLeadFilter (welcomeMut today) (loadRow today r0))).leadName =
        r0.leadName
    rw [passStepF_leadName followFilter (followMut today) (fun r => rfl),
      passStepF_leadName newLeadFilter (welcomeMut today) (fun r => rfl)]
    rfl
  · show (passStepF followFilter (followMut today)
      (passStepF newLeadFilter (welcomeMut today) (loadRow today r0))).email =
        r0.email
    rw [passStepF_email followFilter (followMut today) (fun r => rfl),
      passStepF_email newLeadFilter (welcomeMut today) (fun r => rfl)]
    rfl

/-- C9 witness: length, identity fields and header at a concrete run. -/
theorem c9_rows_preserved_witness :
    (processLeads today0 allOk allOk [recFollow]).table.length = [recFollow].length ∧
    (∃ sr : StrRow, (processLeads today0 allOk allOk [recFollow]).table[0]? = some sr ∧
      sr.leadName = recFollow.leadName ∧ sr.email = recFollow.email) ∧
    writtenHeader = loadedHeader ++ ["Days Since Last Contact"] :=
  ⟨(c9_rows_preserved today0 allOk allOk [recFollow]).1,
   (c9_rows_preserved today0 allOk allOk [recFollow]).2.1 0 recFollow (by decide),
   (c9_rows_preserved today0 allOk allOk [recFollow]).2.2⟩

/-- C10: before write-back every row is serialized cell-by-cell to Python
string form; a row whose final date is `NaT` (absent or unparsable, and not
contacted this run) is written as the literal string `"NaT"`, and a row whose
final date is a `Timestamp` (in particular one contacted this run, set to
`today`) is written as the full date-time string — date, a space, and the
time of day — never as a date-only string. -/
theorem c10_string_writeback (today : DateTime) (wOk fOk : Nat → Bool)
    (input : List RawRecord) (i : Nat) (fr : Row)
    (hget : (followTable today wOk fOk input)[i]? = some fr) :
    (processLeads today wOk fOk input).table[i]? = some (stringifyRow fr) ∧
    (fr.lastContact = none → (stringifyRow fr).lastContact = "NaT") ∧
    (∀ d, fr.lastContact = some d →
      (stringifyRow fr).lastContact = dateStr d ++ " " ++ timeStr d ∧
      dateStr d ++ " " ++ timeStr d ≠ dateStr d) := by
  refine ⟨?_, ?_, ?_⟩
  · show ((followTable today wOk fOk input).map stringifyRow)[i]? = _
    rw [List.getElem?_map, hget]
    rfl
  · intro h
    simp [stringifyRow, h, dtOptToString]
  · intro d h
    refine ⟨by simp [stringifyRow, h, dtOptToString, dtToString], ?_⟩
    intro heq
    have hlen := congrArg String.length heq
    rw [String.length_append, String.length_append] at hlen
    have hone : (" " : String).length = 1 := by decide
    omega

/-- C10 witness: an unparsable date cell round-trips as `"NaT"`, and a record
contacted this run is written with the full date-time string, which differs
from the date-only string. -/
theorem c10_string_writeback_witness :
    ((processLeads today0 allOk allOk [recBadDate]).table[0]? =
      some (stringifyRow ⟨"Gus", "", "Closed", none, "", 999⟩) ∧
     (stringifyRow ⟨"Gus", "", "Closed", none, "", 999⟩).lastContact = "NaT") ∧
    ((stringifyRow ⟨"Bob", "b@x.com", "Follow-up", some today0, "Auto-email sent",
        9⟩).lastContact = dateStr today0 ++ " " ++ timeStr today0 ∧
     dateStr today0 ++ " " ++ timeStr today0 ≠ dateStr today0) :=
  ⟨⟨(c10_string_writeback today0 allOk allOk [recBadDate] 0
      ⟨"Gus", "", "Closed", none, "", 999⟩ (by decide)).1,
    (c10_string_writeback today0 allOk allOk [recBadDate] 0
      ⟨"Gus", "", "Closed", none, "", 999⟩ (by decide)).2.1 rfl⟩,
   (c10_string_writeback today0 allOk allOk [recFollow] 0
      ⟨"Bob", "b@x.com", "Follow-up", some today0, "Auto-email sent", 9⟩
      (by decide)).2.2 today0 rfl⟩

end LeadAuto
